import Mathlib

/-
Verification of the operator-dashboard polling client embedded in
templates/dashboard.html (the <script> block, lines 381-633).

The client is single-threaded, event-driven JavaScript.  We embed it in two
layers:

  1. Pure per-payload render functions (updateStatusBar, updateStats,
     updateAgents, updateTasks, showTaskModal, createTask), translated
     directly from the corresponding JS functions.  DOM regions are modelled
     structurally (a region's content is a value, full-region replacement is
     a functional update); JSON fields that may be absent are Option-typed,
     and the JS `a || b` fallback on strings/numbers is modelled by explicit
     falsy helpers (undefined and "" and 0 are falsy).

  2. An event-loop transition system (LoopState / Event / step) for the
     temporal claims.  Suspension points of the script are exactly its
     await boundaries, so the environment's choices are modelled as events:
     an interval tick, a Refresh click, the settling of an in-flight
     refresh cycle's two fetches (a cycle's continuation after
     `await Promise.all` runs atomically, as in the script), the Start
     button's click and response, and stopAutoRefresh.  A fetch outcome
     `err` means the promise chain for that fetch rejected (network error
     or .json() parse failure) - in the script either rejection sends the
     whole try-block to its catch.
-/

namespace UltimaDash

/-- JS numeric fallback `v || 0` for a possibly-absent JSON number
(undefined and 0 are falsy; both map to 0 here, matching the script). -/
def jsNumOr (v : Option Nat) : Nat := v.getD 0

/-- JS string fallback `v || d` for a possibly-absent JSON string
(undefined and the empty string are falsy). -/
def jsStrOr (v : Option String) (d : String) : String :=
  match v with
  | none => d
  | some s => if s = "" then d else s

/-- JS truthiness filter on a possibly-absent string: a falsy value
(undefined or "") becomes none. -/
def truthyStr (v : Option String) : Option String :=
  match v with
  | none => none
  | some s => if s = "" then none else some s

/-- The `ultima_status` object inside the /api/status payload. -/
structure UltimaStatus where
  running : Bool
  pid : Option Nat
  deriving DecidableEq

/-- The `status_counts` mapping of the /api/status payload; each of the
three counters the dashboard reads may be absent. -/
structure StatusCounts where
  completed : Option Nat
  in_progress : Option Nat
  pending : Option Nat
  deriving DecidableEq

/-- The /api/status payload as read by the script. -/
structure StatusPayload where
  ultima_status : UltimaStatus
  total_tasks : Nat
  status_counts : StatusCounts
  agent_counts : List (String × Nat)
  deriving DecidableEq

/-- One entry of the /api/tasks payload as read by the script. -/
structure TaskSummary where
  id : String
  status : Option String
  description : Option String
  task_description : Option String
  agent : String
  source : String
  created_at : Option String
  timestamp : Option String
  deriving DecidableEq

/-- Status-bar text set by updateStatusBar: either
`Running (PID: <pid>)` or `Stopped`. -/
inductive StatusText where
  | runningWithPid (pid : Option Nat)
  | stoppedText
  deriving DecidableEq

/-- The status-bar region after updateStatusBar ran: the dot's `running`
class, the text, and the `<n> Tasks` counter. -/
structure StatusBarView where
  dotRunning : Bool
  text : StatusText
  taskCount : Nat
  deriving DecidableEq

/-- updateStatusBar (dashboard.html lines 430-444). -/
def updateStatusBar (s : StatusPayload) : StatusBarView :=
  if s.ultima_status.running then
    { dotRunning := true
      text := StatusText.runningWithPid s.ultima_status.pid
      taskCount := s.total_tasks }
  else
    { dotRunning := false
      text := StatusText.stoppedText
      taskCount := s.total_tasks }

/-- One stat tile of the stats grid. -/
structure StatItem where
  label : String
  value : Nat
  deriving DecidableEq

/-- updateStats (dashboard.html lines 446-461): always four tiles, the
three counters read with the `|| 0` fallback. -/
def updateStats (s : StatusPayload) : List StatItem :=
  [ { label := "Total Tasks", value := s.total_tasks },
    { label := "Completed", value := jsNumOr s.status_counts.completed },
    { label := "In Progress", value := jsNumOr s.status_counts.in_progress },
    { label := "Pending", value := jsNumOr s.status_counts.pending } ]

/-- The agents region after updateAgents ran. -/
inductive AgentsView where
  | noAgents
  | agentRows (xs : List (String × Nat))
  deriving DecidableEq

/-- updateAgents (dashboard.html lines 463-481). -/
def updateAgents (s : StatusPayload) : AgentsView :=
  if s.agent_counts.isEmpty then AgentsView.noAgents
  else AgentsView.agentRows s.agent_counts

/-- One rendered task row.  `timeSource` is the argument handed to
formatTime (`task.created_at || task.timestamp`), kept raw because
formatTime's output is host-locale formatting; none means the falsy case,
which formatTime renders as `Unknown`. -/
structure Row where
  id : String
  statusClass : String
  descriptionText : String
  agent : String
  source : String
  timeSource : Option String
  deriving DecidableEq

/-- The per-row template of updateTasks (dashboard.html lines 491-501):
class `task-status ${task.status || 'pending'}`, description fallback
chain, meta line fields. -/
def renderTaskRow (t : TaskSummary) : Row :=
  { id := t.id
    statusClass := jsStrOr t.status "pending"
    descriptionText := jsStrOr t.description (jsStrOr t.task_description "No description")
    agent := t.agent
    source := t.source
    timeSource := (truthyStr t.created_at).orElse (fun _ => truthyStr t.timestamp) }

/-- The tasks region after updateTasks ran. -/
inductive TasksRegion where
  | noTasks
  | taskRowList (xs : List Row)
  deriving DecidableEq

/-- updateTasks (dashboard.html lines 483-503): empty list renders the
`No tasks found` placeholder, otherwise `tasks.slice(0, 10).map(...)`. -/
def updateTasks (tasks : List TaskSummary) : TasksRegion :=
  if tasks.length = 0 then TasksRegion.noTasks
  else TasksRegion.taskRowList ((tasks.take 10).map renderTaskRow)

/-- The rows held by a tasks region (the placeholder holds none). -/
def taskRows : TasksRegion → List Row
  | TasksRegion.noTasks => []
  | TasksRegion.taskRowList xs => xs

/-- Background color the stylesheet (dashboard.html lines 129-146) gives a
`.task-status` element carrying the extra class `cls`: only
completed/failed/in_progress have modifier rules; any other class -
including `pending`, which has no modifier rule of its own - falls through
to the base `#ffa502`. -/
def taskStatusColor (cls : String) : String :=
  if cls = "completed" then "#2ed573"
  else if cls = "failed" then "#ff4757"
  else if cls = "in_progress" then "#00d4ff"
  else "#ffa502"

/-- The status strings the StatusKind enum knows. -/
def knownStatusKinds : List String := ["pending", "in_progress", "completed", "failed"]

/-- Outcome of one fetch-and-parse promise chain: ok with the parsed
payload, or err when the fetch rejected or .json() failed - either
rejection sends the enclosing try-block to its catch. -/
inductive FetchOutcome (α : Type) where
  | ok (a : α)
  | err
  deriving DecidableEq

/-- The /api/task/{id} payload fields the modal body reads.  (The
`metadata.result` block of lines 609-628 only appends extra lines when
that key is present; we model payloads without it, which the claims
quantify over.) -/
structure TaskDetail where
  status : String
  agent : String
  description : String
  deriving DecidableEq

/-- The /api/task/{id}/log payload: `{ log: sequence<string> }`, the key
possibly absent (the script guards it with `logJson.log || []`). -/
structure LogPayload where
  log : Option (List String)
  deriving DecidableEq

/-- The modal after showTaskModal ran: either shown with title, body text
and log text, or the catch path's `alert('Failed to load task detail')`
with the modal left untouched. -/
inductive ModalView where
  | shown (title : String) (body : String) (logText : String)
  | alertFailure
  deriving DecidableEq

/-- The base body text built at line 608. -/
def modalBodyText (t : TaskDetail) : String :=
  "Status: " ++ t.status ++ "\nAgent: " ++ t.agent ++ "\nDescription: " ++ t.description

/-- showTaskModal (dashboard.html lines 599-633): both fetches are issued
together in a Promise.all; only when both settle successfully is the modal
filled and displayed, and any rejection reaches the catch, which alerts
and renders nothing. -/
def showTaskModal (id : String) (task : FetchOutcome TaskDetail)
    (log : FetchOutcome LogPayload) : ModalView :=
  match task, log with
  | FetchOutcome.ok t, FetchOutcome.ok l =>
      ModalView.shown ("Task " ++ id) (modalBodyText t) (String.join ((l.log).getD []))
  | _, _ => ModalView.alertFailure

/-- A command response body of the `{ success, error? }` shape (§6 of the
REST contract). -/
structure CmdBody where
  success : Bool
  error : Option String
  deriving DecidableEq

/-- What the environment did to one command invocation: the promise chain
threw (fetch rejected or body was not JSON), or a response arrived with
HTTP-level `response.ok` and a parsed body. -/
inductive CmdOutcome where
  | threw (msg : String)
  | responded (ok : Bool) (body : CmdBody)
  deriving DecidableEq

/-- The observable effects of one createTask invocation on form, refresh
scheduling and alerts. -/
structure CreateTaskEffects where
  formReset : Bool
  formHidden : Bool
  refreshScheduled : Bool
  alertMsg : Option String
  deriving DecidableEq

/-- String coercion of a possibly-absent error field, as in
`'...' + result.error`. -/
def jsShowOptStr (v : Option String) : String := v.getD "undefined"

/-- createTask (dashboard.html lines 549-584).  Note the branch condition:
it tests the HTTP-level `response.ok`, not the body's `success` flag (the
body is parsed into `result` but only its `error` field is ever read, on
the non-ok branch).  On the ok branch the form is reset and hidden and
`setTimeout(loadDashboard, 1000)` is scheduled; on the non-ok branch the
server error is alerted; a thrown fetch/parse alerts the exception
message. -/
def createTask (o : CmdOutcome) : CreateTaskEffects :=
  match o with
  | CmdOutcome.threw msg =>
      { formReset := false, formHidden := false, refreshScheduled := false
        alertMsg := some ("Error creating task: " ++ msg) }
  | CmdOutcome.responded ok body =>
      if ok then
        { formReset := true, formHidden := true, refreshScheduled := true
          alertMsg := none }
      else
        { formReset := false, formHidden := false, refreshScheduled := false
          alertMsg := some ("Failed to create task: " ++ jsShowOptStr body.error) }

/-- The four polled DOM regions; none is the markup's initial placeholder
(`Checking...` / `Loading...`), some is the last rendered content.  Each
render replaces a whole region. -/
structure Dom where
  statusBar : Option StatusBarView
  statsGrid : Option (List StatItem)
  agentsList : Option AgentsView
  tasksList : Option TasksRegion
  deriving DecidableEq

/-- The page as served, before any render. -/
def initialDom : Dom :=
  { statusBar := none, statsGrid := none, agentsList := none, tasksList := none }

/-- The render pass of a successful refresh cycle (loadDashboard lines
419-424): all four regions replaced from the two fresh payloads. -/
def renderCycle (st : StatusPayload) (tk : List TaskSummary) : Dom :=
  { statusBar := some (updateStatusBar st)
    statsGrid := some (updateStats st)
    agentsList := some (updateAgents st)
    tasksList := some (updateTasks tk) }

/-- Event-loop state of the script.  `intervalActive` is whether the
setInterval handle is live; `inFlight` counts loadDashboard invocations
whose awaits have not settled; `renders` counts completed render passes;
`consoleErrors` counts catch-path console.error logs; `startAwaiting` and
`startRequests` track startUltima invocations awaiting a response and the
total POST /api/ultima/start requests ever issued; `alerts` counts alert
dialogs; `pendingTimeouts` counts setTimeout(loadDashboard, ...) callbacks
scheduled by a successful start but not yet fired. -/
structure LoopState where
  intervalActive : Bool
  inFlight : Nat
  dom : Dom
  renders : Nat
  consoleErrors : Nat
  startAwaiting : Nat
  startRequests : Nat
  alerts : Nat
  pendingTimeouts : Nat
  deriving DecidableEq

/-- Environment events at the script's suspension points. -/
inductive Event where
  | tick
  | refreshClick
  | settle (st : FetchOutcome StatusPayload) (tk : FetchOutcome (List TaskSummary))
  | stopSched
  | startClick
  | startSettle (o : CmdOutcome)
  | timeoutFire

/-- One event-loop step, translated from the script.

    tick: the interval callback (startAutoRefresh line 400) invokes
    loadDashboard, which immediately issues its two fetches - there is no
    in-flight check, so a new cycle starts regardless of pending ones.
    refreshClick: the Refresh button is wired straight to loadDashboard
    (line 394).  settle: an in-flight cycle's awaits settle and its
    continuation runs atomically: both payloads ok renders all regions
    (lines 419-424), any rejection runs the catch's console.error (line
    426); the continuation consults no flag, so it renders even when the
    interval was stopped.  stopSched: stopAutoRefresh (lines 403-407)
    clears the interval and nothing else.  startClick: startUltima (lines
    514-527) immediately issues its POST - again no guard.  startSettle:
    startUltima's continuation - `result.success` schedules
    setTimeout(loadDashboard, 2000), otherwise an alert; a thrown
    fetch/parse also alerts.  timeoutFire: a pending timeout invokes
    loadDashboard. -/
def step (s : LoopState) : Event → LoopState
  | Event.tick =>
      if s.intervalActive then { s with inFlight := s.inFlight + 1 } else s
  | Event.refreshClick => { s with inFlight := s.inFlight + 1 }
  | Event.settle st tk =>
      if 0 < s.inFlight then
        match st, tk with
        | FetchOutcome.ok sp, FetchOutcome.ok tp =>
            { s with inFlight := s.inFlight - 1
                     dom := renderCycle sp tp
                     renders := s.renders + 1 }
        | _, _ =>
            { s with inFlight := s.inFlight - 1
                     consoleErrors := s.consoleErrors + 1 }
      else s
  | Event.stopSched => { s with intervalActive := false }
  | Event.startClick =>
      { s with startAwaiting := s.startAwaiting + 1
               startRequests := s.startRequests + 1 }
  | Event.startSettle o =>
      if 0 < s.startAwaiting then
        match o with
        | CmdOutcome.threw _ =>
            { s with startAwaiting := s.startAwaiting - 1, alerts := s.alerts + 1 }
        | CmdOutcome.responded _ body =>
            if body.success then
              { s with startAwaiting := s.startAwaiting - 1
                       pendingTimeouts := s.pendingTimeouts + 1 }
            else
              { s with startAwaiting := s.startAwaiting - 1, alerts := s.alerts + 1 }
      else s
  | Event.timeoutFire =>
      if 0 < s.pendingTimeouts then
        { s with pendingTimeouts := s.pendingTimeouts - 1, inFlight := s.inFlight + 1 }
      else s

/-- State after DOMContentLoaded (lines 385-389): loadDashboard() has put
one cycle in flight and startAutoRefresh() has armed the interval. -/
def initState : LoopState :=
  { intervalActive := true, inFlight := 1, dom := initialDom, renders := 0
    consoleErrors := 0, startAwaiting := 0, startRequests := 0, alerts := 0
    pendingTimeouts := 0 }

/-- Run a trace of environment events from the freshly loaded page. -/
def run (es : List Event) : LoopState := es.foldl step initState

/-- One failed refresh cycle under the live cadence: the interval tick
starts a cycle and both of its fetches fail. -/
def failCycle (s : LoopState) : LoopState :=
  step (step s Event.tick) (Event.settle FetchOutcome.err FetchOutcome.err)

/-- n consecutive failed refresh cycles. -/
def runFailCycles : Nat → LoopState → LoopState
  | 0, s => s
  | n + 1, s => runFailCycles n (failCycle s)

/-- Sample /api/status payload used in concrete traces. -/
def sampleStatus : StatusPayload :=
  { ultima_status := { running := true, pid := some 7 }
    total_tasks := 3
    status_counts := { completed := some 1, in_progress := some 1, pending := some 1 }
    agent_counts := [("builder", 2)] }

/-- Sample /api/tasks entry used in concrete traces. -/
def sampleTask : TaskSummary :=
  { id := "t1", status := some "completed", description := some "demo task"
    task_description := none, agent := "builder", source := "user"
    created_at := some "2024-01-01T00:00:00", timestamp := none }

/-- Sample task whose status lies outside the StatusKind enum. -/
def sampleUnknownTask : TaskSummary :=
  { id := "t2", status := some "cancelled", description := some "odd task"
    task_description := none, agent := "builder", source := "user"
    created_at := none, timestamp := none }

/-- Sample /api/task/{id} detail payload. -/
def sampleDetail : TaskDetail :=
  { status := "completed", agent := "builder", description := "demo task" }

/-- Sample status payload whose status_counts has every key missing. -/
def sampleStatusAllMissing : StatusPayload :=
  { ultima_status := { running := false, pid := none }
    total_tasks := 5
    status_counts := { completed := none, in_progress := none, pending := none }
    agent_counts := [] }

/-- C1 counterexample: a concrete valid trace reaching two simultaneously
in-flight refresh cycles.  The initial cycle settles, the first interval
tick starts cycle N, and - its two requests still unsettled when the next
tick fires - the second tick starts cycle N+1, so two cycles' status/task
requests are in flight at once. -/
theorem c1_overlap_counterexample :
    (run [Event.settle (FetchOutcome.ok sampleStatus) (FetchOutcome.ok [sampleTask]),
          Event.tick, Event.tick]).inFlight = 2 := by
  decide

/-- C1 amended: the scheduler applies no overlap suppression - while the
interval is active, every tick (and every Refresh click) immediately puts
one more refresh cycle's requests in flight, regardless of how many
earlier cycles are still unsettled. -/
theorem c1_no_overlap_suppression (s : LoopState) (h : s.intervalActive = true) :
    (step s Event.tick).inFlight = s.inFlight + 1 ∧
    (step s Event.refreshClick).inFlight = s.inFlight + 1 := by
  simp [step, h]

/-- C1 amended, witnessed at the freshly loaded page. -/
theorem c1_no_overlap_suppression_witness :
    (step initState Event.tick).inFlight = initState.inFlight + 1 ∧
    (step initState Event.refreshClick).inFlight = initState.inFlight + 1 :=
  c1_no_overlap_suppression initState rfl

/-- C2 counterexample: a cycle whose /api/status fetch succeeds but whose
/api/tasks fetch fails renders nothing at all - the DOM keeps its initial
placeholders (the status bar and stats are not re-rendered from the new
status payload, and the tasks region gets no error placeholder); only a
console error is logged. -/
theorem c2_partial_failure_counterexample :
    (run [Event.settle (FetchOutcome.ok sampleStatus) FetchOutcome.err]).dom = initialDom ∧
    (run [Event.settle (FetchOutcome.ok sampleStatus) FetchOutcome.err]).renders = 0 ∧
    (run [Event.settle (FetchOutcome.ok sampleStatus) FetchOutcome.err]).consoleErrors = 1 := by
  decide

/-- C2 amended: in every refresh cycle whose /api/status fetch succeeds
but whose /api/tasks fetch fails, the whole cycle aborts at the catch: no
region is re-rendered (the status bar and stats are not updated from the
new status payload, no error placeholder is written to the tasks region,
and every region silently keeps its prior content) and the error is
logged to the console. -/
theorem c2_tasks_failure_aborts_cycle (s : LoopState) (st : StatusPayload)
    (hf : 0 < s.inFlight) :
    step s (Event.settle (FetchOutcome.ok st) FetchOutcome.err) =
      { s with inFlight := s.inFlight - 1, consoleErrors := s.consoleErrors + 1 } := by
  simp [step, hf]

/-- C2 amended, witnessed on the initial cycle with status ok and tasks
failed. -/
theorem c2_tasks_failure_aborts_cycle_witness :
    step initState (Event.settle (FetchOutcome.ok sampleStatus) FetchOutcome.err) =
      { initState with inFlight := initState.inFlight - 1
                       consoleErrors := initState.consoleErrors + 1 } :=
  c2_tasks_failure_aborts_cycle initState sampleStatus (by decide)

/-- C3 counterexample: stopAutoRefresh is called while the initial cycle
is still in flight, and when that cycle later resolves its results are
rendered anyway - a full render pass mutates all four regions after
stop. -/
theorem c3_render_after_stop_counterexample :
    (run [Event.stopSched,
          Event.settle (FetchOutcome.ok sampleStatus) (FetchOutcome.ok [sampleTask])]).renders = 1 ∧
    (run [Event.stopSched,
          Event.settle (FetchOutcome.ok sampleStatus) (FetchOutcome.ok [sampleTask])]).dom =
      renderCycle sampleStatus [sampleTask] := by
  decide

/-- C3 amended: stopAutoRefresh only deactivates the interval, so no
further tick starts a cycle, but an already in-flight cycle's resolution
still renders: loadDashboard's continuation consults no stopped flag, so
the in-flight results are applied to the DOM, not discarded. -/
theorem c3_stop_only_cancels_ticks (s : LoopState) (st : StatusPayload)
    (tk : List TaskSummary) (hf : 0 < s.inFlight) :
    (step s Event.stopSched).intervalActive = false ∧
    step { s with intervalActive := false } Event.tick = { s with intervalActive := false } ∧
    (step { s with intervalActive := false }
        (Event.settle (FetchOutcome.ok st) (FetchOutcome.ok tk))).renders = s.renders + 1 ∧
    (step { s with intervalActive := false }
        (Event.settle (FetchOutcome.ok st) (FetchOutcome.ok tk))).dom = renderCycle st tk := by
  refine ⟨by simp [step], by simp [step], ?_, ?_⟩ <;> simp [step, hf]

/-- C3 amended, witnessed at the freshly loaded page. -/
theorem c3_stop_only_cancels_ticks_witness :
    (step initState Event.stopSched).intervalActive = false ∧
    step { initState with intervalActive := false } Event.tick =
      { initState with intervalActive := false } ∧
    (step { initState with intervalActive := false }
        (Event.settle (FetchOutcome.ok sampleStatus)
          (FetchOutcome.ok [sampleTask]))).renders = initState.renders + 1 ∧
    (step { initState with intervalActive := false }
        (Event.settle (FetchOutcome.ok sampleStatus)
          (FetchOutcome.ok [sampleTask]))).dom = renderCycle sampleStatus [sampleTask] :=
  c3_stop_only_cancels_ticks initState sampleStatus [sampleTask] (by decide)

/-- C4 counterexample: for task id 42 with the detail fetch succeeding and
the log fetch failing, showTaskModal takes the catch path - an alert is
shown and the modal is not filled at all; the successful detail half is
not rendered and no log error placeholder appears. -/
theorem c4_partial_modal_counterexample :
    showTaskModal "42" (FetchOutcome.ok sampleDetail) FetchOutcome.err =
      ModalView.alertFailure := by
  decide

/-- C4 amended: both fetches are issued together, but when either fails
the whole detail view is abandoned: the catch alerts and renders neither
half; partial rendering never occurs. -/
theorem c4_any_failure_blanks_modal (id : String) (t : FetchOutcome TaskDetail)
    (l : FetchOutcome LogPayload) (h : t = FetchOutcome.err ∨ l = FetchOutcome.err) :
    showTaskModal id t l = ModalView.alertFailure := by
  rcases h with h | h
  · subst h; cases l <;> rfl
  · subst h; cases t <;> rfl

/-- C4 amended, witnessed at id 42 with the log fetch failing. -/
theorem c4_any_failure_blanks_modal_witness :
    showTaskModal "42" (FetchOutcome.ok sampleDetail) FetchOutcome.err =
      ModalView.alertFailure :=
  c4_any_failure_blanks_modal "42" (FetchOutcome.ok sampleDetail) FetchOutcome.err (Or.inr rfl)

/-- C5: evaluating createTask at a backend response that reports failure
in its body (success false, error queue full) but arrives with a 2xx
status: because the code branches on response.ok instead of the body's
success flag, the form is reset and hidden, a refresh is scheduled, and no
error is surfaced - the opposite of the claim on every point.  (Its
sibling handlers startUltima/stopUltima branch on result.success, and the
REST contract gives the body the success/error shape, so the response.ok
test is the slip.) -/
theorem c5_createTask_ok_with_success_false :
    createTask (CmdOutcome.responded true { success := false, error := some "queue full" }) =
      { formReset := true, formHidden := true, refreshScheduled := true
        alertMsg := none } := by
  decide

/-- C6 counterexample: two Start clicks in rapid succession, the second
while the first invocation is still awaiting its response, issue two POST
/api/ultima/start requests, not one. -/
theorem c6_double_click_counterexample :
    (run [Event.startClick]).startAwaiting = 1 ∧
    (run [Event.startClick, Event.startClick]).startRequests = 2 ∧
    (run [Event.startClick, Event.startClick]).startRequests ≠ 1 := by
  decide

/-- C6 amended: there is no in-flight guard on the command handlers -
every Start click immediately dispatches its own POST /api/ultima/start,
even while a prior invocation of the same command is still awaiting its
response, so n rapid clicks send n requests. -/
theorem c6_no_inflight_guard (s : LoopState) :
    (step s Event.startClick).startRequests = s.startRequests + 1 ∧
    (step s Event.startClick).startAwaiting = s.startAwaiting + 1 := by
  simp [step]

/-- Helper: one failed refresh cycle under a live interval only increments
the console-error counter; the interval, the DOM, and all other state are
unchanged. -/
theorem failCycle_apply (s : LoopState) (h : s.intervalActive = true) :
    failCycle s = { s with consoleErrors := s.consoleErrors + 1 } := by
  cases s
  subst h
  simp [failCycle, step, Nat.succ_pos]

/-- C7: the scheduler survives an unbounded run of consecutive failed
refresh cycles - after any number n of failed cycles the interval is still
active, each failure was logged to the console (and not rethrown: the step
function is total and nothing else changed), and the next tick proceeds
normally, starting a new cycle. -/
theorem c7_scheduler_survives_failures (n : Nat) (s : LoopState)
    (h : s.intervalActive = true) :
    (runFailCycles n s).intervalActive = true ∧
    (runFailCycles n s).consoleErrors = s.consoleErrors + n ∧
    (step (runFailCycles n s) Event.tick).inFlight = (runFailCycles n s).inFlight + 1 := by
  induction n generalizing s with
  | zero => exact ⟨h, rfl, by simp [runFailCycles, step, h]⟩
  | succ n ih =>
      have hfc := failCycle_apply s h
      have h2 : (failCycle s).intervalActive = true := by rw [hfc]; exact h
      obtain ⟨ia, ce, tk⟩ := ih (failCycle s) h2
      refine ⟨ia, ?_, tk⟩
      have hce : (failCycle s).consoleErrors = s.consoleErrors + 1 := by rw [hfc]
      show (runFailCycles n (failCycle s)).consoleErrors = s.consoleErrors + (n + 1)
      rw [ce, hce]
      omega

/-- C7 witnessed at three consecutive failed cycles from the freshly
loaded page. -/
theorem c7_scheduler_survives_failures_witness :
    (runFailCycles 3 initState).intervalActive = true ∧
    (runFailCycles 3 initState).consoleErrors = initState.consoleErrors + 3 ∧
    (step (runFailCycles 3 initState) Event.tick).inFlight =
      (runFailCycles 3 initState).inFlight + 1 :=
  c7_scheduler_survives_failures 3 initState rfl

/-- C8: the rendered task region holds exactly the first min(length, 10)
entries of the server-provided list, each rendered in place, in the
server-provided order - a truncation to the display window of 10 with no
re-sorting. -/
theorem c8_tasks_truncation (tasks : List TaskSummary) :
    taskRows (updateTasks tasks) = (tasks.take 10).map renderTaskRow ∧
    (taskRows (updateTasks tasks)).length = min tasks.length 10 := by
  by_cases h : tasks.length = 0
  · have he : tasks = [] := List.length_eq_zero.mp h
    subst he
    simp [updateTasks, taskRows]
  · constructor
    · simp [updateTasks, taskRows, h]
    · simp [updateTasks, taskRows, h, Nat.min_comm]

/-- C9: a task whose status lies outside the StatusKind enum (missing,
empty, or an unknown string) still renders - updateTasks produces its row
- and the stylesheet resolves that row's status dot to the same background
color as a pending row, since neither the unknown class nor pending has a
modifier rule. -/
theorem c9_unknown_status_pending_styled (t : TaskSummary)
    (h : ∀ v, t.status = some v → v ∉ knownStatusKinds) :
    updateTasks [t] = TasksRegion.taskRowList [renderTaskRow t] ∧
    taskStatusColor (renderTaskRow t).statusClass =
      taskStatusColor (renderTaskRow { t with status := some "pending" }).statusClass := by
  constructor
  · simp [updateTasks]
  · cases hs : t.status with
    | none => simp [renderTaskRow, jsStrOr, hs, taskStatusColor]
    | some v =>
        have hv := h v hs
        simp [knownStatusKinds] at hv
        obtain ⟨h1, h2, h3, h4⟩ := hv
        by_cases hve : v = ""
        · subst hve
          simp [renderTaskRow, jsStrOr, hs, taskStatusColor]
        · simp [renderTaskRow, jsStrOr, hs, hve, taskStatusColor, h2, h3, h4]

/-- C9 witnessed at a task whose status is the unknown string
cancelled. -/
theorem c9_unknown_status_pending_styled_witness :
    updateTasks [sampleUnknownTask] =
      TasksRegion.taskRowList [renderTaskRow sampleUnknownTask] ∧
    taskStatusColor (renderTaskRow sampleUnknownTask).statusClass =
      taskStatusColor
        (renderTaskRow { sampleUnknownTask with status := some "pending" }).statusClass :=
  c9_unknown_status_pending_styled sampleUnknownTask (by
    intro v hv
    simp [sampleUnknownTask] at hv
    subst hv
    decide)

/-- C10: the stats region always shows exactly the four counters Total
Tasks, Completed, In Progress and Pending, and each of the three
status_counts counters renders 0 whenever its key is missing from the
payload (never undefined; updateStats is total, so no exception path
exists). -/
theorem c10_stats_default_zero (s : StatusPayload) :
    (updateStats s).length = 4 ∧
    (updateStats s).map StatItem.label = ["Total Tasks", "Completed", "In Progress", "Pending"] ∧
    (s.status_counts.completed = none →
      ((updateStats s)[1]?).map StatItem.value = some 0) ∧
    (s.status_counts.in_progress = none →
      ((updateStats s)[2]?).map StatItem.value = some 0) ∧
    (s.status_counts.pending = none →
      ((updateStats s)[3]?).map StatItem.value = some 0) := by
  refine ⟨by simp [updateStats], by simp [updateStats], ?_, ?_, ?_⟩ <;>
    (intro h; simp [updateStats, jsNumOr, h])

/-- C10 witnessed at a payload whose status_counts has all three keys
missing. -/
theorem c10_stats_default_zero_witness :
    ((updateStats sampleStatusAllMissing)[1]?).map StatItem.value = some 0 ∧
    ((updateStats sampleStatusAllMissing)[2]?).map StatItem.value = some 0 ∧
    ((updateStats sampleStatusAllMissing)[3]?).map StatItem.value = some 0 ∧
    (updateStats sampleStatusAllMissing).length = 4 :=
  ⟨(c10_stats_default_zero sampleStatusAllMissing).2.2.1 rfl,
   (c10_stats_default_zero sampleStatusAllMissing).2.2.2.1 rfl,
   (c10_stats_default_zero sampleStatusAllMissing).2.2.2.2 rfl,
   (c10_stats_default_zero sampleStatusAllMissing).1⟩

end UltimaDash
